import Mathlib

/-!
Verification of the SmartAudio VTX emulator protocol engine
(`main_port.py`): CRC-8 checksum, frame codec, command dispatch,
device state mutation, and the byte-stream framing state machine.

Bytes are modelled as `Nat` (the Python code manipulates ints taken
from `bytes`/`bytearray`, all < 256 on every path the claims touch).
Fallible operations (Python index errors on out-of-range accesses)
are modelled with `Option`: `none` stands for a raised exception.
-/

/-- Precomputed CRC-8 lookup table using polynomial 0xD5
(`Configuration.CRC8_TABLE`). -/
def CRC8_TABLE : List Nat := [
  0x00, 0xD5, 0x7F, 0xAA, 0xFE, 0x2B, 0x81, 0x54,
  0x29, 0xFC, 0x56, 0x83, 0xD7, 0x02, 0xA8, 0x7D,
  0x52, 0x87, 0x2D, 0xF8, 0xAC, 0x79, 0xD3, 0x06,
  0x7B, 0xAE, 0x04, 0xD1, 0x85, 0x50, 0xFA, 0x2F,
  0xA4, 0x71, 0xDB, 0x0E, 0x5A, 0x8F, 0x25, 0xF0,
  0x8D, 0x58, 0xF2, 0x27, 0x73, 0xA6, 0x0C, 0xD9,
  0xF6, 0x23, 0x89, 0x5C, 0x08, 0xDD, 0x77, 0xA2,
  0xDF, 0x0A, 0xA0, 0x75, 0x21, 0xF4, 0x5E, 0x8B,
  0x9D, 0x48, 0xE2, 0x37, 0x63, 0xB6, 0x1C, 0xC9,
  0xB4, 0x61, 0xCB, 0x1E, 0x4A, 0x9F, 0x35, 0xE0,
  0xCF, 0x1A, 0xB0, 0x65, 0x31, 0xE4, 0x4E, 0x9B,
  0xE6, 0x33, 0x99, 0x4C, 0x18, 0xCD, 0x67, 0xB2,
  0x39, 0xEC, 0x46, 0x93, 0xC7, 0x12, 0xB8, 0x6D,
  0x10, 0xC5, 0x6F, 0xBA, 0xEE, 0x3B, 0x91, 0x44,
  0x6B, 0xBE, 0x14, 0xC1, 0x95, 0x40, 0xEA, 0x3F,
  0x42, 0x97, 0x3D, 0xE8, 0xBC, 0x69, 0xC3, 0x16,
  0xEF, 0x3A, 0x90, 0x45, 0x11, 0xC4, 0x6E, 0xBB,
  0xC6, 0x13, 0xB9, 0x6C, 0x38, 0xED, 0x47, 0x92,
  0xBD, 0x68, 0xC2, 0x17, 0x43, 0x96, 0x3C, 0xE9,
  0x94, 0x41, 0xEB, 0x3E, 0x6A, 0xBF, 0x15, 0xC0,
  0x4B, 0x9E, 0x34, 0xE1, 0xB5, 0x60, 0xCA, 0x1F,
  0x62, 0xB7, 0x1D, 0xC8, 0x9C, 0x49, 0xE3, 0x36,
  0x19, 0xCC, 0x66, 0xB3, 0xE7, 0x32, 0x98, 0x4D,
  0x30, 0xE5, 0x4F, 0x9A, 0xCE, 0x1B, 0xB1, 0x64,
  0x72, 0xA7, 0x0D, 0xD8, 0x8C, 0x59, 0xF3, 0x26,
  0x5B, 0x8E, 0x24, 0xF1, 0xA5, 0x70, 0xDA, 0x0F,
  0x20, 0xF5, 0x5F, 0x8A, 0xDE, 0x0B, 0xA1, 0x74,
  0x09, 0xDC, 0x76, 0xA3, 0xF7, 0x22, 0x88, 0x5D,
  0xD6, 0x03, 0xA9, 0x7C, 0x28, 0xFD, 0x57, 0x82,
  0xFF, 0x2A, 0x80, 0x55, 0x01, 0xD4, 0x7E, 0xAB,
  0x84, 0x51, 0xFB, 0x2E, 0x7A, 0xAF, 0x05, 0xD0,
  0xAD, 0x78, 0xD2, 0x07, 0x53, 0x86, 0x2C, 0xF9]

/-- CRC-8 checksum using polynomial 0xD5 (`SmartAudioProtocol.crc8`):
start at 0 and fold `crc = CRC8_TABLE[crc ^ byte]` over the input. -/
def crc8 (data : List Nat) : Nat :=
  data.foldl (fun crc byte => CRC8_TABLE.getD (crc ^^^ byte) 0) 0

/-- Conversion of a 16-bit value to two big-endian bytes
(`SmartAudioProtocol.short_to_bytes`). -/
def short_to_bytes (value : Nat) : List Nat :=
  [(value >>> 8) &&& 0xFF, value &&& 0xFF]

/-- Response frame construction (`SmartAudioProtocol.build_frame`):
sync, header, command, payload length, payload, then the CRC computed
over `frame[2:]`, i.e. command, length and payload. -/
def build_frame (command : Nat) (payload : List Nat) : List Nat :=
  let frame := [0xAA, 0x55, command, payload.length] ++ payload
  frame ++ [crc8 (frame.drop 2)]

/-- Mutable VTX device state (`VTXState`). -/
structure VTXState where
  version : Nat
  channel : Nat
  power : Nat
  mode : Nat
  frequency : Nat
  power_levels : List Nat
deriving Repr, DecidableEq

/-- Default state installed by `VTXState.reset`: SmartAudio V2,
channel 1, power 0, mode 0b00010, frequency 5865, power levels
[0x00, 0x0E, 0x14, 0x1A]. -/
def resetState : VTXState :=
  { version := 2, channel := 1, power := 0, mode := 0b00010,
    frequency := 5865, power_levels := [0x00, 0x0E, 0x14, 0x1A] }

/-- GET_SETTINGS handler (`handle_get_settings`). The V2.1 branch
indexes `power_levels[power]` with no bounds guard; `none` models the
`IndexError` Python raises when the index is out of range. -/
def handle_get_settings (s : VTXState) : Option (List Nat) :=
  let freq_bytes := short_to_bytes s.frequency
  if s.version = 1 then
    some (build_frame 0x01 ([s.channel, s.power, s.mode] ++ freq_bytes))
  else if s.version = 2 then
    some (build_frame 0x09 ([s.channel, s.power, s.mode] ++ freq_bytes))
  else
    (s.power_levels.get? s.power).map fun dbm =>
      build_frame 0x11 ([s.channel, s.power, s.mode] ++ freq_bytes ++
        [dbm, s.power_levels.length] ++ s.power_levels)

/-- SET_POWER handler (`handle_set_power`): stores `data[0] & 0x7F`
and echoes it back with a reserved byte. `none` models the
`IndexError` on an empty payload. -/
def handle_set_power (s : VTXState) (data : List Nat) :
    Option (VTXState × List Nat) :=
  (data.get? 0).map fun d0 =>
    let new_power := d0 &&& 0x7F
    ({ s with power := new_power }, build_frame 0x02 [new_power, 0x01])

/-- SET_CHANNEL handler (`handle_set_channel`): stores `data[0]`,
clears `mode`, echoes the channel with a reserved byte. -/
def handle_set_channel (s : VTXState) (data : List Nat) :
    Option (VTXState × List Nat) :=
  (data.get? 0).map fun d0 =>
    ({ s with channel := d0, mode := 0b00000 }, build_frame 0x03 [d0, 0x01])

/-- SET_FREQUENCY handler (`handle_set_frequency`): stores
`(data[0] << 8) | data[1]`, sets `mode = 0b00001`, and echoes the full
input payload followed by a reserved byte. -/
def handle_set_frequency (s : VTXState) (data : List Nat) :
    Option (VTXState × List Nat) :=
  match data.get? 0, data.get? 1 with
  | some d0, some d1 =>
      some ({ s with frequency := (d0 <<< 8) ||| d1, mode := 0b00001 },
        build_frame 0x04 (data ++ [0x01]))
  | _, _ => none

/-- SET_MODE handler (`handle_set_mode`): stores `data[0]` and echoes
it with a reserved byte. -/
def handle_set_mode (s : VTXState) (data : List Nat) :
    Option (VTXState × List Nat) :=
  (data.get? 0).map fun d0 =>
    ({ s with mode := d0 }, build_frame 0x05 [d0, 0x01])

/-- Membership of a command id in the `command_handlers` dictionary
(keys SA_CMD_GET_SETTINGS..SA_CMD_SET_MODE = 0x01..0x05). -/
def isKnownCommand (c : Nat) : Bool :=
  c == 0x01 || c == 0x02 || c == 0x03 || c == 0x04 || c == 0x05

/-- Handler lookup of `process_packet`: the raw command id first, the
shifted id (`raw >> 1`) only if the raw id has no handler. -/
def resolveCmd (raw : Nat) : Option Nat :=
  if isKnownCommand raw then some raw
  else if isKnownCommand (raw >>> 1) then some (raw >>> 1)
  else none

/-- Invocation of the handler bound to a known command id. The
GET_SETTINGS entry ignores its payload and leaves the state alone. -/
def invokeHandler (c : Nat) (s : VTXState) (payload : List Nat) :
    Option (VTXState × List Nat) :=
  if c = 0x01 then (handle_get_settings s).map fun f => (s, f)
  else if c = 0x02 then handle_set_power s payload
  else if c = 0x03 then handle_set_channel s payload
  else if c = 0x04 then handle_set_frequency s payload
  else if c = 0x05 then handle_set_mode s payload
  else none

/-- Outcome of `process_packet`: a response frame, no response
(`return None`), or an uncaught Python exception. -/
inductive PResult where
  | crash : PResult
  | noResponse : PResult
  | response : List Nat → PResult
deriving Repr, DecidableEq

/-- Packet processing (`SmartAudioProtocol.process_packet`): length
check, the two hard-coded test-shortcut branches (answered before any
CRC check), then CRC validation over `packet[:-1]` — all bytes except
the trailing CRC byte, sync and header included — and dispatch by raw
or shifted command id on the payload slice `packet[4:4+packet[3]]`. -/
def process_packet (s : VTXState) (packet : List Nat) : VTXState × PResult :=
  if packet.length < 5 then (s, .noResponse)
  else if packet.getD 2 0 = 0x02 ∧ packet.getD 3 0 = 0x00 then
    match handle_get_settings s with
    | some f => (s, .response f)
    | none => (s, .crash)
  else if packet.getD 2 0 = 0x04 ∧ packet.getD 3 0 = 0x01 ∧
      4 < packet.length ∧ packet.getD 4 0 = 0x02 then
    match handle_set_power s [0x02] with
    | some (s', f) => (s', .response f)
    | none => (s, .crash)
  else if packet.getLast? ≠ some (crc8 packet.dropLast) then (s, .noResponse)
  else
    match resolveCmd (packet.getD 2 0) with
    | none => (s, .noResponse)
    | some c =>
      match invokeHandler c s ((packet.drop 4).take (packet.getD 3 0)) with
      | some (s', f) => (s', .response f)
      | none => (s, .crash)

/-- Explicit byte layout of an encoded frame. -/
theorem build_frame_eq (cmd : Nat) (p : List Nat) :
    build_frame cmd p =
      [0xAA, 0x55, cmd, p.length] ++ p ++ [crc8 ([cmd, p.length] ++ p)] := rfl

/-- C1: the claim says `validate (encode cmd payload)` succeeds for every
command and payload, the validator recomputing the CRC over command,
length and payload only. Evaluated at the failing input
`build_frame 0x01 []`: the encoder did set the trailing byte to the CRC
over command+length+payload, yet `process_packet` recomputes the CRC
over `packet[:-1]` — sync and header included — obtains a different
value, and drops the frame. -/
theorem c1_roundtrip_fails :
    process_packet resetState (build_frame 0x01 []) =
      (resetState, PResult.noResponse) ∧
    (build_frame 0x01 []).getLast? =
      some (crc8 (((build_frame 0x01 []).drop 2).dropLast)) ∧
    crc8 ((build_frame 0x01 []).dropLast) ≠
      crc8 (((build_frame 0x01 []).drop 2).dropLast) := by
  decide

/-- C4: a V2.1 state whose `power` is not a valid index into
`power_levels` (also the empty table) makes `handle_get_settings`
raise an uncaught `IndexError` (modelled `none`), and a CRC-valid
GET_SETTINGS request then crashes `process_packet` instead of being
answered by clamping or a defensive no-op. -/
theorem c4_get_settings_v21_oob_crash :
    handle_get_settings { resetState with version := 3, power := 4 } = none ∧
    handle_get_settings { resetState with version := 3, power_levels := [] } = none ∧
    (process_packet { resetState with version := 3, power := 4 }
        [0xAA, 0x55, 0x01, 0x00, 0x89]).2 = PResult.crash := by
  decide

/-- C5: the encoder emits exactly
sync, header, command, payload length, payload, CRC over
command+length+payload; and GET_SETTINGS under V1 with the default
state returns exactly [0xAA, 0x55, 0x01, 5, 1, 0, 0b00010, 22, 233, CRC]
with the CRC (= 0xD6) computed over bytes 2..8 of that frame. -/
theorem c5_encoder_bytes :
    (∀ (cmd : Nat) (p : List Nat),
      build_frame cmd p =
        [0xAA, 0x55, cmd, p.length] ++ p ++ [crc8 ([cmd, p.length] ++ p)]) ∧
    handle_get_settings { resetState with version := 1 } =
      some ([0xAA, 0x55, 0x01, 5, 1, 0, 0b00010, 22, 233] ++
        [crc8 [0x01, 5, 1, 0, 0b00010, 22, 233]]) ∧
    crc8 [0x01, 5, 1, 0, 0b00010, 22, 233] = 0xD6 := by
  exact ⟨fun cmd p => rfl, by decide, by decide⟩

/-- C7: SET_POWER stores `level & 0x7F` (top bit masked) and responds
with payload [power, 0x01]; input 0x82 yields stored power 2 and
response payload [2, 1]. -/
theorem c7_set_power :
    (∀ (s : VTXState) (level : Nat),
      handle_set_power s [level] =
        some ({ s with power := level &&& 0x7F },
          build_frame 0x02 [level &&& 0x7F, 0x01])) ∧
    (handle_set_power resetState [0x82]).map
        (fun x => (x.1.power, (x.2.drop 4).dropLast)) = some (2, [2, 1]) := by
  exact ⟨fun s level => rfl, by decide⟩

/-- C8: SET_FREQUENCY stores `hi << 8 ||| lo`, sets mode to 1, and the
response payload echoes the input bytes verbatim followed by 0x01;
input [0x16, 0xA8] yields frequency 5800 and mode 1. -/
theorem c8_set_frequency :
    (∀ (s : VTXState) (hi lo : Nat),
      handle_set_frequency s [hi, lo] =
        some ({ s with frequency := (hi <<< 8) ||| lo, mode := 1 },
          build_frame 0x04 [hi, lo, 0x01])) ∧
    (handle_set_frequency resetState [0x16, 0xA8]).map
        (fun x => (x.1.frequency, x.1.mode, (x.2.drop 4).dropLast)) =
      some (5800, 1, [0x16, 0xA8, 0x01]) := by
  exact ⟨fun s hi lo => rfl, by decide⟩

/-- C2 counterexample: the packet [0xAA, 0x55, 0x02, 0x00, 0x00] has a
trailing byte that does not match the recomputed CRC, yet
`process_packet` answers it (first test-shortcut branch) with the
GET_SETTINGS response — CRC validation is bypassed. -/
theorem c2_crc_bypass_counterexample :
    (process_packet resetState [0xAA, 0x55, 0x02, 0x00, 0x00]).2 =
      PResult.response (build_frame 0x09 [1, 0, 0b00010, 22, 233]) ∧
    crc8 [0xAA, 0x55, 0x02, 0x00] ≠ 0x00 := by
  decide

/-- C2 (amended): outside the two hard-coded byte patterns
(`packet[2] = 0x02 ∧ packet[3] = 0x00`, and
`packet[2] = 0x04 ∧ packet[3] = 0x01 ∧ packet[4] = 0x02`), a packet is
answered only if it is at least 5 bytes long, its trailing byte equals
the CRC recomputed over all preceding bytes, and its command id (raw,
or else shifted right by one) resolves to a known handler. -/
theorem c2_no_bypass_outside_shims (s : VTXState) (pkt : List Nat)
    (s' : VTXState) (f : List Nat)
    (h1 : ¬(pkt.getD 2 0 = 0x02 ∧ pkt.getD 3 0 = 0x00))
    (h2 : ¬(pkt.getD 2 0 = 0x04 ∧ pkt.getD 3 0 = 0x01 ∧
      4 < pkt.length ∧ pkt.getD 4 0 = 0x02))
    (h : process_packet s pkt = (s', PResult.response f)) :
    5 ≤ pkt.length ∧ pkt.getLast? = some (crc8 pkt.dropLast) ∧
      (resolveCmd (pkt.getD 2 0)).isSome := by
  unfold process_packet at h
  by_cases hlen : pkt.length < 5
  · rw [if_pos hlen] at h
    exact absurd h (by simp)
  · rw [if_neg hlen, if_neg h1, if_neg h2] at h
    by_cases hcrc : pkt.getLast? ≠ some (crc8 pkt.dropLast)
    · rw [if_pos hcrc] at h
      exact absurd h (by simp)
    · rw [if_neg hcrc] at h
      push_neg at hcrc
      refine ⟨Nat.le_of_not_lt hlen, hcrc, ?_⟩
      rcases hr : resolveCmd (pkt.getD 2 0) with _ | c
      · rw [hr] at h
        exact absurd h (by simp)
      · simp

/-- Witness for the amended C2 at a concrete CRC-valid SET_MODE
packet. -/
theorem c2_no_bypass_outside_shims_witness :
    5 ≤ ([0xAA, 0x55, 0x05, 0x01, 0x07] ++
        [crc8 [0xAA, 0x55, 0x05, 0x01, 0x07]] : List Nat).length ∧
    ([0xAA, 0x55, 0x05, 0x01, 0x07] ++
        [crc8 [0xAA, 0x55, 0x05, 0x01, 0x07]] : List Nat).getLast? =
      some (crc8 ([0xAA, 0x55, 0x05, 0x01, 0x07] ++
        [crc8 [0xAA, 0x55, 0x05, 0x01, 0x07]] : List Nat).dropLast) ∧
    (resolveCmd (([0xAA, 0x55, 0x05, 0x01, 0x07] ++
        [crc8 [0xAA, 0x55, 0x05, 0x01, 0x07]] : List Nat).getD 2 0)).isSome :=
  c2_no_bypass_outside_shims resetState _
    { resetState with mode := 0x07 } (build_frame 0x05 [0x07, 0x01])
    (by decide) (by decide) (by decide)

/-- C3 counterexample: a CRC-valid raw-encoded SET_POWER frame
(command byte 0x02) and the CRC-valid frame carrying the shifted id
(0x04) with the same payload [5, 6] invoke different handlers: the
first runs SET_POWER (stores power 5, response command id 0x02), the
second runs SET_FREQUENCY — 0x04 is also SET_FREQUENCY's raw id and
the raw lookup wins — storing frequency 1286 and answering with
command id 0x04. -/
theorem c3_shifted_encoding_collision :
    (process_packet resetState ([0xAA, 0x55, 0x02, 0x02, 0x05, 0x06] ++
        [crc8 [0xAA, 0x55, 0x02, 0x02, 0x05, 0x06]])).2 =
      PResult.response (build_frame 0x02 [5, 0x01]) ∧
    (process_packet resetState ([0xAA, 0x55, 0x02, 0x02, 0x05, 0x06] ++
        [crc8 [0xAA, 0x55, 0x02, 0x02, 0x05, 0x06]])).1.power = 5 ∧
    (process_packet resetState ([0xAA, 0x55, 0x04, 0x02, 0x05, 0x06] ++
        [crc8 [0xAA, 0x55, 0x04, 0x02, 0x05, 0x06]])).2 =
      PResult.response (build_frame 0x04 [5, 6, 0x01]) ∧
    (process_packet resetState ([0xAA, 0x55, 0x04, 0x02, 0x05, 0x06] ++
        [crc8 [0xAA, 0x55, 0x04, 0x02, 0x05, 0x06]])).1.frequency = 1286 ∧
    (build_frame 0x02 [5, 0x01]).getD 2 0 ≠
      (build_frame 0x04 [5, 6, 0x01]).getD 2 0 := by
  decide

/-- Received frame carrying command `cmd` and payload `p` whose
trailing byte matches the CRC `process_packet` recomputes (over all
bytes except the last one). -/
def validFrame (cmd : Nat) (p : List Nat) : List Nat :=
  0xAA :: 0x55 :: cmd :: p.length ::
    (p ++ [crc8 (0xAA :: 0x55 :: cmd :: p.length :: p)])

/-- Evaluation of `process_packet` on a CRC-valid frame that matches
neither test-shortcut pattern: it reduces to dispatch by raw-first,
shifted-second lookup on the frame's payload. -/
theorem process_packet_validFrame (s : VTXState) (cmd : Nat) (p : List Nat)
    (h1 : ¬(cmd = 0x02 ∧ p.length = 0)) (h2 : ¬(cmd = 0x04 ∧ p.length = 1)) :
    process_packet s (validFrame cmd p) =
      match resolveCmd cmd with
      | none => (s, .noResponse)
      | some c =>
        match invokeHandler c s p with
        | some (s', f) => (s', .response f)
        | none => (s, .crash) := by
  have hf : validFrame cmd p =
      (0xAA :: 0x55 :: cmd :: p.length :: p) ++
        [crc8 (0xAA :: 0x55 :: cmd :: p.length :: p)] := rfl
  have hlen : ¬((validFrame cmd p).length < 5) := by
    rw [hf]
    simp
  have hg2 : (validFrame cmd p).getD 2 0 = cmd := rfl
  have hg3 : (validFrame cmd p).getD 3 0 = p.length := rfl
  have hcrc : ¬((validFrame cmd p).getLast? ≠
      some (crc8 (validFrame cmd p).dropLast)) := by
    rw [hf, List.getLast?_concat, List.dropLast_concat]
    exact fun hne => hne rfl
  have hpay : ((validFrame cmd p).drop 4).take p.length = p := by
    show (p ++ [_]).take p.length = p
    exact List.take_left p _
  have hs1 : ¬((validFrame cmd p).getD 2 0 = 0x02 ∧
      (validFrame cmd p).getD 3 0 = 0x00) := by
    rw [hg2, hg3]
    exact fun hx => h1 ⟨hx.1, hx.2⟩
  have hs2 : ¬((validFrame cmd p).getD 2 0 = 0x04 ∧
      (validFrame cmd p).getD 3 0 = 0x01 ∧
      4 < (validFrame cmd p).length ∧
      (validFrame cmd p).getD 4 0 = 0x02) := by
    rw [hg2, hg3]
    exact fun hx => h2 ⟨hx.1, hx.2.1⟩
  unfold process_packet
  rw [if_neg hlen, if_neg hs1, if_neg hs2, if_neg hcrc, hg2, hg3, hpay]

/-- C3 (amended): for SET_CHANNEL (0x03) and SET_MODE (0x05) with any
nonempty payload, and SET_FREQUENCY (0x04) with any payload of at
least two bytes, a CRC-valid frame with the raw id and one with the
shifted id produce identical processing results, and the response
carries the raw command id; the claim's remaining commands
GET_SETTINGS (0x01) and SET_POWER (0x02) fail it because their
shifted ids 0x02 and 0x04 collide with the raw ids of SET_POWER and
SET_FREQUENCY. -/
theorem c3_dual_encoding_amended (s : VTXState) (d0 d1 : Nat)
    (rest : List Nat) :
    (process_packet s (validFrame 0x03 (d0 :: rest)) =
        process_packet s (validFrame 0x06 (d0 :: rest)) ∧
      (process_packet s (validFrame 0x03 (d0 :: rest))).2 =
        PResult.response (build_frame 0x03 [d0, 0x01])) ∧
    (process_packet s (validFrame 0x05 (d0 :: rest)) =
        process_packet s (validFrame 0x0A (d0 :: rest)) ∧
      (process_packet s (validFrame 0x05 (d0 :: rest))).2 =
        PResult.response (build_frame 0x05 [d0, 0x01])) ∧
    (process_packet s (validFrame 0x04 (d0 :: d1 :: rest)) =
        process_packet s (validFrame 0x08 (d0 :: d1 :: rest)) ∧
      (process_packet s (validFrame 0x04 (d0 :: d1 :: rest))).2 =
        PResult.response (build_frame 0x04 ((d0 :: d1 :: rest) ++ [0x01]))) := by
  have e3 := process_packet_validFrame s 0x03 (d0 :: rest)
    (by simp) (by simp)
  have e6 := process_packet_validFrame s 0x06 (d0 :: rest)
    (by simp) (by simp)
  have e5 := process_packet_validFrame s 0x05 (d0 :: rest)
    (by simp) (by simp)
  have eA := process_packet_validFrame s 0x0A (d0 :: rest)
    (by simp) (by simp)
  have e4 := process_packet_validFrame s 0x04 (d0 :: d1 :: rest)
    (by simp) (by rintro ⟨-, hx⟩; simp at hx)
  have e8 := process_packet_validFrame s 0x08 (d0 :: d1 :: rest)
    (by simp) (by simp)
  refine ⟨⟨?_, ?_⟩, ⟨?_, ?_⟩, ⟨?_, ?_⟩⟩
  · rw [e3, e6]
    rfl
  · rw [e3]
    rfl
  · rw [e5, eA]
    rfl
  · rw [e5]
    rfl
  · rw [e4, e8]
    rfl
  · rw [e4]
    rfl

/-- C9: GET_SETTINGS never mutates the state; SET_POWER changes only
`power`; SET_CHANNEL changes only `channel` and `mode` (mode reset to
0); SET_FREQUENCY changes only `frequency` and `mode` (mode reset to
1); SET_MODE changes only `mode`; `version` and `power_levels` are
never changed by any handler. -/
theorem c9_handler_state_effects (s : VTXState) (pl : List Nat)
    (st : VTXState) (f : List Nat) :
    (invokeHandler 0x01 s pl = some (st, f) → st = s) ∧
    (invokeHandler 0x02 s pl = some (st, f) →
      st.channel = s.channel ∧ st.mode = s.mode ∧
      st.frequency = s.frequency ∧ st.version = s.version ∧
      st.power_levels = s.power_levels) ∧
    (invokeHandler 0x03 s pl = some (st, f) →
      st.power = s.power ∧ st.frequency = s.frequency ∧
      st.version = s.version ∧ st.power_levels = s.power_levels ∧
      st.mode = 0) ∧
    (invokeHandler 0x04 s pl = some (st, f) →
      st.power = s.power ∧ st.channel = s.channel ∧
      st.version = s.version ∧ st.power_levels = s.power_levels ∧
      st.mode = 1) ∧
    (invokeHandler 0x05 s pl = some (st, f) →
      st.power = s.power ∧ st.channel = s.channel ∧
      st.frequency = s.frequency ∧ st.version = s.version ∧
      st.power_levels = s.power_levels) := by
  refine ⟨?_, ?_, ?_, ?_, ?_⟩
  · intro h
    rcases hg : handle_get_settings s with _ | g <;>
      simp [invokeHandler, hg] at h
    exact h.1.symm
  · intro h
    rcases pl with _ | ⟨a, rest⟩ <;>
      simp [invokeHandler, handle_set_power] at h
    obtain ⟨h1, -⟩ := h
    rw [← h1]
    simp
  · intro h
    rcases pl with _ | ⟨a, rest⟩ <;>
      simp [invokeHandler, handle_set_channel] at h
    obtain ⟨h1, -⟩ := h
    rw [← h1]
    simp
  · intro h
    rcases pl with _ | ⟨a, _ | ⟨b, rest⟩⟩ <;>
      simp [invokeHandler, handle_set_frequency] at h
    obtain ⟨h1, -⟩ := h
    rw [← h1]
    simp
  · intro h
    rcases pl with _ | ⟨a, rest⟩ <;>
      simp [invokeHandler, handle_set_mode] at h
    obtain ⟨h1, -⟩ := h
    rw [← h1]
    simp

/-- Witness for C9 at the default state with payload [5, 6]. -/
theorem c9_handler_state_effects_witness :
    (resetState = resetState) ∧
    (({ resetState with power := 5 } : VTXState).channel = resetState.channel ∧
      ({ resetState with power := 5 } : VTXState).mode = resetState.mode ∧
      ({ resetState with power := 5 } : VTXState).frequency = resetState.frequency ∧
      ({ resetState with power := 5 } : VTXState).version = resetState.version ∧
      ({ resetState with power := 5 } : VTXState).power_levels = resetState.power_levels) ∧
    (({ resetState with channel := 5, mode := 0 } : VTXState).power = resetState.power ∧
      ({ resetState with channel := 5, mode := 0 } : VTXState).frequency = resetState.frequency ∧
      ({ resetState with channel := 5, mode := 0 } : VTXState).version = resetState.version ∧
      ({ resetState with channel := 5, mode := 0 } : VTXState).power_levels = resetState.power_levels ∧
      ({ resetState with channel := 5, mode := 0 } : VTXState).mode = 0) ∧
    (({ resetState with frequency := 1286, mode := 1 } : VTXState).power = resetState.power ∧
      ({ resetState with frequency := 1286, mode := 1 } : VTXState).channel = resetState.channel ∧
      ({ resetState with frequency := 1286, mode := 1 } : VTXState).version = resetState.version ∧
      ({ resetState with frequency := 1286, mode := 1 } : VTXState).power_levels = resetState.power_levels ∧
      ({ resetState with frequency := 1286, mode := 1 } : VTXState).mode = 1) ∧
    (({ resetState with mode := 5 } : VTXState).power = resetState.power ∧
      ({ resetState with mode := 5 } : VTXState).channel = resetState.channel ∧
      ({ resetState with mode := 5 } : VTXState).frequency = resetState.frequency ∧
      ({ resetState with mode := 5 } : VTXState).version = resetState.version ∧
      ({ resetState with mode := 5 } : VTXState).power_levels = resetState.power_levels) :=
  ⟨(c9_handler_state_effects resetState [5, 6] resetState
      (build_frame 0x09 [1, 0, 0b00010, 22, 233])).1 (by decide),
   (c9_handler_state_effects resetState [5, 6] { resetState with power := 5 }
      (build_frame 0x02 [5, 0x01])).2.1 (by decide),
   (c9_handler_state_effects resetState [5, 6]
      { resetState with channel := 5, mode := 0 }
      (build_frame 0x03 [5, 0x01])).2.2.1 (by decide),
   (c9_handler_state_effects resetState [5, 6]
      { resetState with frequency := 1286, mode := 1 }
      (build_frame 0x04 [5, 6, 0x01])).2.2.2.1 (by decide),
   (c9_handler_state_effects resetState [5, 6] { resetState with mode := 5 }
      (build_frame 0x05 [5, 0x01])).2.2.2.2 (by decide)⟩

/-- Well-formed response frame, as claim C10 states it: sync and
header bytes, length byte equal to the payload length, total length
five more than the payload length, and a trailing byte equal to the
CRC over bytes 2..end-1. -/
def wellFormedFrame (f : List Nat) : Prop :=
  f.getD 0 0 = 0xAA ∧ f.getD 1 0 = 0x55 ∧
  f.length = ((f.drop 4).dropLast).length + 5 ∧
  f.getD 3 0 = ((f.drop 4).dropLast).length ∧
  f.getLast? = some (crc8 ((f.drop 2).dropLast))

/-- Every frame the encoder builds is well formed. -/
theorem wellFormed_build_frame (cmd : Nat) (p : List Nat) :
    wellFormedFrame (build_frame cmd p) := by
  have hf : build_frame cmd p =
      (0xAA :: 0x55 :: cmd :: p.length :: p) ++
        [crc8 (cmd :: p.length :: p)] := rfl
  have hpay : ((build_frame cmd p).drop 4).dropLast = p := by
    show (p ++ [_]).dropLast = p
    exact List.dropLast_concat
  refine ⟨rfl, rfl, ?_, ?_, ?_⟩
  · rw [hpay, hf]
    simp
  · rw [hpay]
    rfl
  · have hd2 : ((build_frame cmd p).drop 2).dropLast = cmd :: p.length :: p := by
      show ((cmd :: p.length :: p) ++ [_]).dropLast = _
      exact List.dropLast_concat
    rw [hd2, hf, List.getLast?_concat]

/-- Every successful GET_SETTINGS response is a frame the encoder
built. -/
theorem handle_get_settings_wellFormed (s : VTXState) (f : List Nat)
    (h : handle_get_settings s = some f) : wellFormedFrame f := by
  unfold handle_get_settings at h
  split_ifs at h with h1 h2
  · obtain rfl := Option.some.inj h
    exact wellFormed_build_frame _ _
  · obtain rfl := Option.some.inj h
    exact wellFormed_build_frame _ _
  · rcases hm : s.power_levels.get? s.power with _ | dbm <;> rw [hm] at h
    · simp at h
    · simp only [Option.map_some'] at h
      obtain rfl := Option.some.inj h
      exact wellFormed_build_frame _ _

/-- Every frame produced by a handler invocation is well formed. -/
theorem invokeHandler_wellFormed (c : Nat) (s : VTXState) (pl : List Nat)
    (st : VTXState) (f : List Nat)
    (h : invokeHandler c s pl = some (st, f)) : wellFormedFrame f := by
  unfold invokeHandler at h
  split_ifs at h
  · rcases hg : handle_get_settings s with _ | g <;> rw [hg] at h
    · simp at h
    · simp only [Option.map_some'] at h
      obtain ⟨-, rfl⟩ := Prod.mk.injEq _ _ _ _ ▸ Option.some.inj h
      exact handle_get_settings_wellFormed s g hg
  · unfold handle_set_power at h
    rcases pl with _ | ⟨a, rest⟩
    · simp at h
    · simp only [List.get?, Option.map_some'] at h
      obtain ⟨-, rfl⟩ := Prod.mk.injEq _ _ _ _ ▸ Option.some.inj h
      exact wellFormed_build_frame _ _
  · unfold handle_set_channel at h
    rcases pl with _ | ⟨a, rest⟩
    · simp at h
    · simp only [List.get?, Option.map_some'] at h
      obtain ⟨-, rfl⟩ := Prod.mk.injEq _ _ _ _ ▸ Option.some.inj h
      exact wellFormed_build_frame _ _
  · unfold handle_set_frequency at h
    rcases pl with _ | ⟨a, _ | ⟨b, rest⟩⟩
    · simp at h
    · simp at h
    · simp only [List.get?] at h
      obtain ⟨-, rfl⟩ := Prod.mk.injEq _ _ _ _ ▸ Option.some.inj h
      exact wellFormed_build_frame _ _
  · unfold handle_set_mode at h
    rcases pl with _ | ⟨a, rest⟩
    · simp at h
    · simp only [List.get?, Option.map_some'] at h
      obtain ⟨-, rfl⟩ := Prod.mk.injEq _ _ _ _ ▸ Option.some.inj h
      exact wellFormed_build_frame _ _

/-- C10: whenever `process_packet` returns a response, that response
is a well-formed frame: it starts with 0xAA, 0x55, its fourth byte is
the payload length, its total length is the payload length plus 5,
and its last byte is the CRC over its command, length and payload
bytes. -/
theorem c10_response_wellformed (s : VTXState) (pkt : List Nat)
    (s' : VTXState) (f : List Nat)
    (h : process_packet s pkt = (s', PResult.response f)) :
    wellFormedFrame f := by
  unfold process_packet at h
  split_ifs at h with hl hs1 hs2 hc
  · exact absurd h (by simp)
  · rcases hg : handle_get_settings s with _ | g <;> rw [hg] at h
    · exact absurd h (by simp)
    · obtain ⟨-, hfe⟩ := Prod.mk.injEq _ _ _ _ ▸ h
      obtain rfl := PResult.response.inj hfe
      exact handle_get_settings_wellFormed s g hg
  · rcases hp : handle_set_power s [0x02] with _ | ⟨st, g⟩ <;> rw [hp] at h
    · exact absurd h (by simp)
    · obtain ⟨-, hfe⟩ := Prod.mk.injEq _ _ _ _ ▸ h
      obtain rfl := PResult.response.inj hfe
      exact invokeHandler_wellFormed 0x02 s [0x02] st g (by
        unfold invokeHandler
        simpa using hp)
  · exact absurd h (by simp)
  · rcases hr : resolveCmd (pkt.getD 2 0) with _ | c <;> rw [hr] at h
    · exact absurd h (by simp)
    · have h2 : (match invokeHandler c s ((pkt.drop 4).take (pkt.getD 3 0)) with
          | some (s', f) => (s', PResult.response f)
          | none => (s, PResult.crash)) = (s', PResult.response f) := h
      rcases hi : invokeHandler c s ((pkt.drop 4).take (pkt.getD 3 0))
          with _ | ⟨st, g⟩ <;> rw [hi] at h2
      · exact absurd h2 (by simp)
      · obtain ⟨-, hfe⟩ := Prod.mk.injEq _ _ _ _ ▸ h2
        obtain rfl := PResult.response.inj hfe
        exact invokeHandler_wellFormed c s _ st g hi

/-- Witness for C10 at a concrete CRC-valid SET_MODE packet. -/
theorem c10_response_wellformed_witness :
    wellFormedFrame (build_frame 0x05 [0x07, 0x01]) :=
  c10_response_wellformed resetState
    ([0xAA, 0x55, 0x05, 0x01, 0x07] ++ [crc8 [0xAA, 0x55, 0x05, 0x01, 0x07]])
    { resetState with mode := 0x07 } (build_frame 0x05 [0x07, 0x01])
    (by decide)

/-- State of the byte-stream framing loop in `VTXEmulator.run`:
the state-machine tag (SA_SYNC=0, SA_HEADER=1, SA_COMMAND=2,
SA_LENGTH=3, SA_DATA=4, SA_CRC=5), the accumulated candidate frame
`rx_packet`, the running byte counter `in_idx`, and the absolute index
`in_len` at which the payload ends. -/
structure AsmState where
  state : Nat
  rx_packet : List Nat
  in_idx : Nat
  in_len : Nat
deriving Repr, DecidableEq

/-- Initial assembler state of a fresh connection. -/
def asmInit : AsmState :=
  { state := 0, rx_packet := [], in_idx := 0, in_len := 0 }

/-- One iteration of the byte loop in `VTXEmulator.run`: the received
byte is appended to `rx_packet` and `in_idx` incremented, then the
state machine runs; in the SA_CRC state the completed buffer is handed
to packet processing (the second component) and everything resets. -/
def asmStep (a : AsmState) (byte : Nat) : AsmState × Option (List Nat) :=
  let rx := a.rx_packet ++ [byte]
  let idx := a.in_idx + 1
  if a.state = 0 then
    if byte = 0xAA then
      ({ a with state := 1, rx_packet := rx, in_idx := idx }, none)
    else ({ a with rx_packet := [], in_idx := 0 }, none)
  else if a.state = 1 then
    if byte = 0x55 then
      ({ a with state := 2, rx_packet := rx, in_idx := idx }, none)
    else ({ a with state := 0, rx_packet := [], in_idx := 0 }, none)
  else if a.state = 2 then
    ({ a with state := 3, rx_packet := rx, in_idx := idx }, none)
  else if a.state = 3 then
    ({ a with state := (if byte ≠ 0 then 4 else 5), rx_packet := rx, in_idx := idx, in_len := idx + byte }, none)
  else if a.state = 4 then
    ({ a with state := (if a.in_len ≤ idx then 5 else 4), rx_packet := rx, in_idx := idx }, none)
  else
    ({ a with state := 0, rx_packet := [], in_idx := 0 }, some rx)

/-- Repeated application of `asmStep` over a byte stream, collecting
every buffer handed to packet processing, in order. -/
def asmRun (a : AsmState) (bytes : List Nat) : AsmState × List (List Nat) :=
  match bytes with
  | [] => (a, [])
  | b :: rest =>
      ((asmRun (asmStep a b).1 rest).1,
        (asmStep a b).2.toList ++ (asmRun (asmStep a b).1 rest).2)

/-- Composition of two feeds of the assembler. -/
theorem asmRun_append (a : AsmState) (l1 l2 : List Nat) :
    asmRun a (l1 ++ l2) =
      ((asmRun (asmRun a l1).1 l2).1,
        (asmRun a l1).2 ++ (asmRun (asmRun a l1).1 l2).2) := by
  induction l1 generalizing a with
  | nil => simp [asmRun]
  | cons b t ih =>
      show asmRun a (b :: (t ++ l2)) = _
      rw [asmRun, ih (asmStep a b).1]
      simp [asmRun]

/-- Feeding the payload in the SA_DATA state: the bytes accumulate
and the machine moves to SA_CRC exactly when `in_idx` reaches
`in_len`, dispatching nothing on the way. -/
theorem asmRun_data (p : List Nat) :
    ∀ (r : List Nat) (i m : Nat), i + p.length = m → i < m →
    asmRun { state := 4, rx_packet := r, in_idx := i, in_len := m } p =
      ({ state := 5, rx_packet := r ++ p, in_idx := m, in_len := m }, []) := by
  induction p with
  | nil =>
      intro r i m h1 h2
      exfalso
      simp only [List.length_nil, Nat.add_zero] at h1
      omega
  | cons d q ih =>
      intro r i m h1 h2
      rcases q with _ | ⟨e, q2⟩
      · have hm : m = i + 1 := by simpa using h1.symm
        subst hm
        show asmRun _ [d] = _
        rw [asmRun, asmRun]
        simp [asmStep]
      · have hlt : ¬(m ≤ i + 1) := by
          simp only [List.length_cons] at h1
          omega
        rw [asmRun]
        have hstep : asmStep { state := 4, rx_packet := r, in_idx := i, in_len := m } d = ({ state := 4, rx_packet := r ++ [d], in_idx := i + 1, in_len := m }, none) := by
          simp [asmStep, hlt]
        rw [hstep]
        have h1' : (i + 1) + (e :: q2).length = m := by
          simp only [List.length_cons] at h1 ⊢
          omega
        rw [ih (r ++ [d]) (i + 1) m h1' (by omega)]
        simp

/-- Feeding one complete frame from a clean state: the machine walks
SYNC, HEADER, COMMAND, LENGTH, DATA, CRC and hands exactly the frame
it accumulated to packet processing. -/
theorem asmRun_frame (cmd x : Nat) (p : List Nat) :
    asmRun asmInit (0xAA :: 0x55 :: cmd :: p.length :: (p ++ [x])) =
      ({ state := 0, rx_packet := [], in_idx := 0, in_len := p.length + 4 },
        [0xAA :: 0x55 :: cmd :: p.length :: (p ++ [x])]) := by
  rcases p with _ | ⟨d, q⟩
  · show asmRun asmInit [0xAA, 0x55, cmd, 0, x] = _
    rw [asmRun, asmRun, asmRun, asmRun, asmRun, asmRun]
    simp [asmStep, asmInit]
  · have hpre : asmRun asmInit [0xAA, 0x55, cmd, (d :: q).length] =
        ({ state := 4, rx_packet := [0xAA, 0x55, cmd, (d :: q).length], in_idx := 4, in_len := 4 + (d :: q).length }, []) := by
      rw [asmRun, asmRun, asmRun, asmRun, asmRun]
      simp [asmStep, asmInit]
    have hsplit : (0xAA :: 0x55 :: cmd :: (d :: q).length ::
        ((d :: q) ++ [x])) =
        [0xAA, 0x55, cmd, (d :: q).length] ++ ((d :: q) ++ [x]) := rfl
    rw [hsplit, asmRun_append, hpre]
    rw [asmRun_append,
      asmRun_data (d :: q) [0xAA, 0x55, cmd, (d :: q).length] 4
        (4 + (d :: q).length) rfl (by simp)]
    show (_, [] ++ ([] ++ _)) = _
    rw [asmRun, asmRun]
    simp [asmStep, List.append_assoc]
    omega

/-- C6: a stray sync byte followed by a non-header byte is discarded
by resynchronization, and the complete valid frame that follows is
the only packet handed to packet processing; moreover every
reset-to-SYNC transition (bad sync byte, or bad header byte) clears
the accumulated buffer, resets the byte counter and dispatches
nothing. -/
theorem c6_resync_dispatches_only_valid_frame (b cmd c : Nat)
    (p : List Nat) (hb : b ≠ 0x55)
    (hc : c = crc8 ([0xAA, 0x55, cmd, p.length] ++ p)) :
    (asmRun asmInit
        ([0xAA, b] ++ ([0xAA, 0x55, cmd, p.length] ++ p ++ [c]))).2 =
      [[0xAA, 0x55, cmd, p.length] ++ p ++ [c]] ∧
    (∀ (a : AsmState) (byte : Nat),
      (a.state = 0 ∧ byte ≠ 0xAA) ∨ (a.state = 1 ∧ byte ≠ 0x55) →
      (asmStep a byte).1.rx_packet = [] ∧ (asmStep a byte).1.in_idx = 0 ∧
        (asmStep a byte).2 = none) := by
  constructor
  · have hstep1 : asmStep asmInit 0xAA =
        (({ state := 1, rx_packet := [0xAA], in_idx := 1, in_len := 0 } : AsmState), none) := rfl
    have hstep2 : asmStep { state := 1, rx_packet := [0xAA], in_idx := 1, in_len := 0 } b = (asmInit, none) := by
      simp [asmStep, hb, asmInit]
    show (asmRun asmInit (0xAA :: b ::
      (0xAA :: 0x55 :: cmd :: p.length :: (p ++ [c])))).2 = _
    rw [asmRun, hstep1, asmRun, hstep2, asmRun_frame]
    rfl
  · rintro a byte (⟨h0, hB⟩ | ⟨h1, hB⟩)
    · simp [asmStep, h0, hB]
    · have h10 : ¬(a.state = 0) := by omega
      simp [asmStep, h1, h10, hB]

/-- Witness for C6 with stray byte 0x00 after the stray sync and a
concrete CRC-valid V2 GET_SETTINGS-style frame. -/
theorem c6_resync_dispatches_only_valid_frame_witness :
    (asmRun asmInit ([0xAA, 0x00] ++
        ([0xAA, 0x55, 0x09, [0x07].length] ++ [0x07] ++
          [crc8 ([0xAA, 0x55, 0x09, [0x07].length] ++ [0x07])]))).2 =
      [[0xAA, 0x55, 0x09, [0x07].length] ++ [0x07] ++
        [crc8 ([0xAA, 0x55, 0x09, [0x07].length] ++ [0x07])]] :=
  (c6_resync_dispatches_only_valid_frame 0x00 0x09
    (crc8 ([0xAA, 0x55, 0x09, [0x07].length] ++ [0x07])) [0x07]
    (by decide) rfl).1
